import Mathlib

/-!
Verification of the startup orchestration and session-admission pipeline of
the moshi standalone web-ui backend (src/rust/web-ui-backend/src/standalone.rs).

External collaborators (the candle runtime, the filesystem, serde, the moshi
model crates, axum) are modelled as explicit parameters: their results are
inputs to the embedded functions, exactly where the Rust code calls out to
them.  The control flow, field updates and error propagation of standalone.rs
itself are embedded faithfully, statement by statement.
-/

namespace Standalone

/-- Error values.  The Rust code uses anyhow errors; we only need to tell the
distinct failure points apart, so each failure point gets a constructor.
The constructors carrying data mirror the data interpolated into the Rust
error message (for example the missing path in the bail of cert_file). -/
inductive Err where
  | fileIO : Err
  | malformed : Err
  | missingFile : String → Err
  | tlsError : Err
  | deviceInit : Err
  | modelLoad : Err
  | tokenizerLoad : Err
  | forwardFailed : Err
  | sampleFailed : Err
  | zerosFailed : Err
  | encodeFailed : Err
  | decodeFailed : Err
  | emptyOutput : Err
  | syncFailed : Err
  | serveFailed : Err
  deriving Repr, DecidableEq

instance {ε α : Type} [DecidableEq ε] [DecidableEq α] : DecidableEq (Except ε α) :=
  fun a b =>
    match a, b with
    | .error x, .error y =>
      if h : x = y then isTrue (by simp [h]) else isFalse (by simp [h])
    | .ok x, .ok y =>
      if h : x = y then isTrue (by simp [h]) else isFalse (by simp [h])
    | .error _, .ok _ => isFalse (by simp)
    | .ok _, .error _ => isFalse (by simp)

/-- candle Device: the tagged choice the selector produces.
Cuda is accelerator-A, Metal is accelerator-B; each carries its ordinal. -/
inductive Device where
  | Cpu : Device
  | Cuda : Nat → Device
  | Metal : Nat → Device
  deriving Repr, DecidableEq

/-- Device.is_cuda from candle, as used by the dtype selection line. -/
def Device.is_cuda : Device → Bool
  | .Cuda _ => true
  | _ => false

/-- Spec-side classifier: a device is an accelerator when it is not the CPU.
Used only to state claims about accelerators as a class. -/
def Device.isAccelerator : Device → Bool
  | .Cpu => false
  | _ => true

/-- The two dtypes the code selects between. -/
inductive DType where
  | BF16 : DType
  | F32 : DType
  deriving Repr, DecidableEq

/-- Spec-side classifier: BF16 is the reduced precision, F32 the full one. -/
def DType.isReduced : DType → Bool
  | .BF16 => true
  | .F32 => false

/-- Outcome of the external availability probes and device constructors of
candle, as consulted by fn device.  new_cuda and new_metal can fail at the
driver level; on success candle returns the device with the requested
ordinal, so only the possible error is left abstract. -/
structure DeviceEnv where
  cuda_is_available : Bool
  metal_is_available : Bool
  newCudaErr : Nat → Option Err
  newMetalErr : Nat → Option Err

/-- fn device(cpu: bool) -> Result of Device, embedded from standalone.rs:
force-CPU first, then CUDA ordinal 0, then Metal ordinal 0, then CPU. -/
def device (E : DeviceEnv) (cpu : Bool) : Except Err Device :=
  if cpu then
    .ok .Cpu
  else if E.cuda_is_available then
    match E.newCudaErr 0 with
    | some e => .error e
    | none => .ok (.Cuda 0)
  else if E.metal_is_available then
    match E.newMetalErr 0 with
    | some e => .error e
    | none => .ok (.Metal 0)
  else
    .ok .Cpu

/-- let dtype = if device.is_cuda() { BF16 } else { F32 }; -/
def dtypeFor (d : Device) : DType :=
  if d.is_cuda then DType.BF16 else DType.F32

/-- Modelled from the spec: the nested stream_both::Config is declared in
stream_both.rs, which is not under src/.  The spec lists its fields:
log directory, tokenizer file, codec model file, language-model file, codec
codebook count, the flag forcing the codec onto CPU, plus further fields
owned by the external streaming component, kept opaque in rest. -/
structure StreamConfig where
  log_dir : String
  text_tokenizer_file : String
  encodec_model_file : String
  lm_model_file : String
  encodec_num_codebooks : Nat
  use_cpu_for_encodec : Bool
  rest : List (String × String)
  deriving Repr, DecidableEq

/-- The top-level Config struct of standalone.rs. -/
structure Config where
  cert_dir : String
  static_dir : String
  addr : String
  port : Nat
  stream : StreamConfig
  deriving Repr, DecidableEq

/-- Modelled from the spec: StandaloneArgs is declared in the crate root,
which is not under src/; the only field standalone.rs reads is cpu. -/
structure StandaloneArgs where
  cpu : Bool
  deriving Repr, DecidableEq

/-- Scan for the closing brace of an environment placeholder: on success
returns the characters before the first closing brace and the characters
after it. -/
def findClose : List Char → Option (List Char × List Char)
  | [] => none
  | c :: rest =>
    if c = '}' then some ([], rest)
    else
      match findClose rest with
      | some (name, r) => some (c :: name, r)
      | none => none

/-- Modelled from the spec: crate::utils::replace_env_vars is declared in
utils.rs, which is not under src/.  The spec says every token of the form
a dollar sign followed by a braced NAME is replaced by the value of the
environment variable NAME, and an unset variable substitutes the empty
string without failing.  A dollar sign not followed by an opening brace,
and an unterminated placeholder, pass through unchanged.  The fuel
argument only bounds the recursion; one unit is spent per character
consumed, so any fuel at least the length of the list gives the
substituted result (substAux_fuel_congr below). -/
def substAux (env : String → Option String) (fuel : Nat) (l : List Char) : List Char :=
  match fuel with
  | 0 => l
  | fuel + 1 =>
    match l with
    | [] => []
    | c :: rest =>
      if c = '$' then
        match rest with
        | '{' :: rest2 =>
          match findClose rest2 with
          | some (name, r) => ((env (String.mk name)).getD "").toList ++ substAux env fuel r
          | none => c :: '{' :: substAux env fuel rest2
        | [] => [c]
        | c2 :: rest2 => c :: substAux env fuel (c2 :: rest2)
      else
        c :: substAux env fuel rest

/-- String-level wrapper over substAux with adequate fuel; this is the
function Config::load applies to each path-like field. -/
def replace_env_vars (env : String → Option String) (s : String) : String :=
  String.mk (substAux env s.toList.length s.toList)

/-- Whether a path string starts with the separator, that is, is absolute. -/
def startsWithSep (s : String) : Bool :=
  match s.toList with
  | '/' :: _ => true
  | _ => false

/-- Whether a path string ends with the separator. -/
def endsWithSep (s : String) : Bool :=
  match s.toList.getLast? with
  | some '/' => true
  | _ => false

/-- std::path::PathBuf join, restricted to what cert_file needs: an absolute
second component replaces the base, otherwise a separator is inserted unless
the base already ends in one. -/
def pathJoin (dir name : String) : String :=
  if startsWithSep name then name
  else if endsWithSep dir then dir ++ name
  else dir ++ "/" ++ name

/-- Config::cert_file from standalone.rs: join the certificate directory
with the name and fail with the missing-file error unless the result is a
regular file.  The filesystem probe is_file is passed in explicitly. -/
def Config.cert_file (is_file : String → Bool) (self : Config) (name : String) :
    Except Err String :=
  let cert_dir := self.cert_dir
  let cert_file := pathJoin cert_dir name
  if !(is_file cert_file) then .error (.missingFile cert_file)
  else .ok cert_file

/-- Config::load from standalone.rs: read the file, parse it, then
substitute environment variables into exactly the six path-like fields.
Reading and serde parsing are external, so their outcomes are parameters. -/
def Config.load (readFile : Except Err String) (parse : String → Except Err Config)
    (env : String → Option String) : Except Err Config :=
  match readFile with
  | .error e => .error e
  | .ok contents =>
  match parse contents with
  | .error e => .error e
  | .ok config =>
  let config := { config with static_dir := replace_env_vars env config.static_dir }
  let config := { config with cert_dir := replace_env_vars env config.cert_dir }
  let config := { config with stream :=
    { config.stream with log_dir := replace_env_vars env config.stream.log_dir } }
  let config := { config with stream :=
    { config.stream with
        text_tokenizer_file := replace_env_vars env config.stream.text_tokenizer_file } }
  let config := { config with stream :=
    { config.stream with
        encodec_model_file := replace_env_vars env config.stream.encodec_model_file } }
  let config := { config with stream :=
    { config.stream with
        lm_model_file := replace_env_vars env config.stream.lm_model_file } }
  .ok config

/-- The codec configuration as reported by the loaded codec model; the two
fields the warm-up reads.  The Rust fields are f64; they are modelled as
rationals, exact for the values the claims mention. -/
structure EncodecConfig where
  sample_rate : Rat
  frame_rate : Rat
  deriving Repr, DecidableEq

/-- let frame_length = (config.sample_rate / config.frame_rate).ceil() as usize; -/
def frameLength (c : EncodecConfig) : Nat :=
  (Int.toNat ⌈c.sample_rate / c.frame_rate⌉)

/-- A candle tensor, modelled by its shape, dtype and flat contents. -/
structure Tensor where
  shape : List Nat
  dtype : DType
  elems : List Rat
  deriving Repr, DecidableEq

/-- Tensor::zeros: an all-zero tensor of the given shape and dtype. -/
def Tensor.zeros (shape : List Nat) (dtype : DType) : Tensor :=
  { shape := shape, dtype := dtype, elems := List.replicate shape.prod 0 }

/-- A streaming tensor as returned by the codec decode step; as_option is
none when the step produced no output. -/
structure StreamTensor (Val : Type) where
  as_option : Option Val
  deriving Repr, DecidableEq

/-- The external calls AppStateInner::new makes, with their result types
left abstract: Lm is the language-model runtime state, Codec the codec
runtime state, Tok the tokenizer, V the first (discarded) forward result,
Ys the forward output fed to sampling, Sample the sampling result, Codes
the encoded frame, Val the decoded payload and Lp the logits-processor
state.  Mutating Rust methods are modelled by returning the updated
receiver alongside the result.  Fallible constructors whose success value
is otherwise determined (Tensor::zeros, synchronize) only expose their
possible error. -/
structure World (Lm Codec Tok V Ys Sample Codes Val Lp : Type) where
  denv : DeviceEnv
  load_streaming : String → DType → Device → Except Err Lm
  encodec_load : String → Option Nat → Device → Except Err Codec
  tokenizer_open : String → Except Err Tok
  forward : Lm → Option Unit → List (Option Unit) → Except Err (Lm × V × Ys)
  logits_processor_new : Nat → Option Rat → Option Rat → Lp
  depformer_sample : Lm → Nat → Ys → Option Unit → Lp → Except Err (Lm × Lp × Sample)
  encodec_config : Codec → EncodecConfig
  zerosErr : List Nat → DType → Device → Option Err
  encode_step : Codec → Tensor → Except Err (Codec × Codes)
  decode_step : Codec → Codes → Except Err (Codec × StreamTensor Val)
  synchronize : Device → Option Err

/-- let encodec_device = if config.use_cpu_for_encodec { Cpu } else { device }; -/
def encodecDevice (config : StreamConfig) (dev : Device) : Device :=
  if config.use_cpu_for_encodec then Device.Cpu else dev

/-- The shared application state, stream_both::AppStateInner, with exactly
the fields the Ok construction in standalone.rs fills in. -/
structure AppStateInner (Lm Codec Tok : Type) where
  lm_model : Lm
  encodec_model : Codec
  device : Device
  config : StreamConfig
  text_tokenizer : Tok
  deriving DecidableEq

variable {Lm Codec Tok V Ys Sample Codes Val Lp Tls : Type}

/-- AppStateInner::new from standalone.rs: device selection, dtype choice,
loading of the language model, codec and tokenizer, then the warm-up block
operating on clones of the two models (the warm-up copies are the shadowed
lmW and codecW; the record returned at the end holds the originals), and
finally device synchronization. -/
def AppStateInner.new (W : World Lm Codec Tok V Ys Sample Codes Val Lp)
    (args : StandaloneArgs) (config : StreamConfig) :
    Except Err (AppStateInner Lm Codec Tok) :=
  match Standalone.device W.denv args.cpu with
  | .error e => .error e
  | .ok device =>
  let dtype := dtypeFor device
  match W.load_streaming config.lm_model_file dtype device with
  | .error e => .error e
  | .ok lm_model =>
  let encodec_device := encodecDevice config device
  match W.encodec_load config.encodec_model_file (some config.encodec_num_codebooks)
      encodec_device with
  | .error e => .error e
  | .ok encodec_model =>
  match W.tokenizer_open config.text_tokenizer_file with
  | .error e => .error e
  | .ok text_tokenizer =>
  -- Warm-up code: lmW and codecW are the clones the block mutates.
  let lmW := lm_model
  match W.forward lmW none (List.replicate config.encodec_num_codebooks none) with
  | .error e => .error e
  | .ok (lmW, _v, ys) =>
  let lp := W.logits_processor_new 123 none none
  match W.depformer_sample lmW 0 ys none lp with
  | .error e => .error e
  | .ok (_lmW, _lp, _s) =>
  let codecW := encodec_model
  let econfig := W.encodec_config codecW
  let frame_length := frameLength econfig
  match W.zerosErr [1, 1, frame_length] DType.F32 encodec_device with
  | some e => .error e
  | none =>
  let fake_pcm := Tensor.zeros [1, 1, frame_length] DType.F32
  match W.encode_step codecW fake_pcm with
  | .error e => .error e
  | .ok (codecW, codes) =>
  match W.decode_step codecW codes with
  | .error e => .error e
  | .ok (_codecW, ys2) =>
  if ys2.as_option.isNone then .error Err.emptyOutput
  else
    match W.synchronize device with
    | some e => .error e
    | none =>
      .ok { lm_model := lm_model, encodec_model := encodec_model, device := device,
            config := config, text_tokenizer := text_tokenizer }

/-- An IP address; only the loopback constant and equality matter here. -/
inductive IpAddr where
  | v4 : Nat → Nat → Nat → Nat → IpAddr
  | v6 : Nat → Nat → Nat → Nat → Nat → Nat → Nat → Nat → IpAddr
  deriving Repr, DecidableEq

/-- std::net::Ipv6Addr::LOCALHOST. -/
def ipv6Localhost : IpAddr := .v6 0 0 0 0 0 0 0 1

/-- A socket address: IP address and port. -/
def SockAddr : Type := IpAddr × Nat

instance : DecidableEq SockAddr := instDecidableEqProd

instance : Repr SockAddr := inferInstanceAs (Repr (IpAddr × Nat))

/-- The external calls run makes besides AppStateInner::new: the filesystem
probe used by cert_file, the rustls TLS-context constructor, the std IP
parser, and the bound server serving connections. -/
structure RunWorld (Lm Codec Tok Tls : Type) where
  is_file : String → Bool
  from_pem_file : String → String → Except Err Tls
  ip_from_str : String → Option IpAddr
  serve : SockAddr → Tls → AppStateInner Lm Codec Tok → Except Err Unit

/-- Observable events of run, in program order: the tracing line announcing
the listening address, and the socket bind with the address used.  run
emits no other tracing event. -/
inductive RunEvent where
  | logListening : SockAddr → RunEvent
  | bound : SockAddr → RunEvent
  deriving Repr, DecidableEq

/-- pub async fn run from standalone.rs, embedded with an event trace:
resolve cert.pem and key.pem, build the TLS context, compute the socket
address (falling back to the IPv6 loopback when the configured address does
not parse), construct the application state, then log the listening address
and bind.  Every failure before the bind returns that error with an empty
trace. -/
def run (W : World Lm Codec Tok V Ys Sample Codes Val Lp)
    (RW : RunWorld Lm Codec Tok Tls) (args : StandaloneArgs) (config : Config) :
    List RunEvent × Except Err Unit :=
  match Config.cert_file RW.is_file config "cert.pem" with
  | .error e => ([], .error e)
  | .ok cert_pem =>
    match Config.cert_file RW.is_file config "key.pem" with
    | .error e => ([], .error e)
    | .ok key_pem =>
      match RW.from_pem_file cert_pem key_pem with
      | .error e => ([], .error e)
      | .ok tls_config =>
        let sock_addr : SockAddr :=
          ((RW.ip_from_str config.addr).getD ipv6Localhost, config.port)
        match AppStateInner.new W args config.stream with
        | .error e => ([], .error e)
        | .ok state =>
          ([RunEvent.logListening sock_addr, RunEvent.bound sock_addr],
            match RW.serve sock_addr tls_config state with
            | .error e => .error e
            | .ok _ => .ok ())

/-! Concrete instantiations used by the witnesses and counterexamples.
The abstract model types are instantiated with Nat or Unit; the model
steps bump their receiver so that a warm-up pass visibly mutates its
copy of the models. -/

/-- A concrete streaming configuration. -/
def streamConfigW : StreamConfig :=
  { log_dir := "/logs", text_tokenizer_file := "/models/tok.model",
    encodec_model_file := "/models/enc.safetensors", lm_model_file := "/models/lm.safetensors",
    encodec_num_codebooks := 8, use_cpu_for_encodec := false, rest := [("theme", "dark")] }

/-- A concrete top-level configuration. -/
def configW : Config :=
  { cert_dir := "/certs", static_dir := "/static", addr := "0.0.0.0", port := 8998,
    stream := streamConfigW }

/-- A filesystem on which exactly the two expected certificate files exist. -/
def fsBoth : String → Bool :=
  fun p => decide (p = "/certs/cert.pem") || decide (p = "/certs/key.pem")

/-- A filesystem on which only cert.pem exists. -/
def fsCertOnly : String → Bool :=
  fun p => decide (p = "/certs/cert.pem")

/-- A device environment with both accelerator runtimes available and both
constructors succeeding. -/
def denvAll : DeviceEnv :=
  { cuda_is_available := true, metal_is_available := true,
    newCudaErr := fun _ => none, newMetalErr := fun _ => none }

/-- A device environment where only the Metal runtime is available. -/
def denvMetal : DeviceEnv :=
  { cuda_is_available := false, metal_is_available := true,
    newCudaErr := fun _ => none, newMetalErr := fun _ => none }

/-- A device environment with no accelerator available. -/
def denvNone : DeviceEnv :=
  { cuda_is_available := false, metal_is_available := false,
    newCudaErr := fun _ => none, newMetalErr := fun _ => none }

/-- A concrete world: every load succeeds, the language model starts at 1,
forward and sampling bump the receiving model copy, the codec starts at 2
and its steps bump the receiving copy, the codec reports the 24000 by 75
configuration, and the decode output and an optional encode failure are
the two knobs. -/
def cWorld (decodeOut : Option Nat) (encodeFail : Bool) :
    World Nat Nat Nat Unit Unit Unit Nat Nat Unit :=
  { denv := denvNone
    load_streaming := fun _ _ _ => .ok 1
    encodec_load := fun _ _ _ => .ok 2
    tokenizer_open := fun _ => .ok 3
    forward := fun lm _ _ => .ok (lm + 10, (), ())
    logits_processor_new := fun _ _ _ => ()
    depformer_sample := fun lm _ _ _ lp => .ok (lm + 100, lp, ())
    encodec_config := fun _ => { sample_rate := 24000, frame_rate := 75 }
    zerosErr := fun _ _ _ => none
    encode_step := fun cd _ => if encodeFail then .error Err.encodeFailed else .ok (cd + 7, 5)
    decode_step := fun cd _ => .ok (cd + 9, { as_option := decodeOut })
    synchronize := fun _ => none }

/-- A concrete run world over fsBoth whose IP parse outcome is a knob. -/
def cRunWorld (parsed : Option IpAddr) : RunWorld Nat Nat Nat Unit :=
  { is_file := fsBoth
    from_pem_file := fun _ _ => .ok ()
    ip_from_str := fun _ => parsed
    serve := fun _ _ _ => .ok () }

/-- A concrete environment defining only HOME. -/
def envW : String → Option String :=
  fun n => if n = "HOME" then some "/home/u" else none

/-- A concrete parsed configuration carrying environment placeholders in
its path-like fields. -/
def cSrcW : Config :=
  { cert_dir := "${HOME}/certs", static_dir := "${HOME}/www", addr := "::1", port := 8998,
    stream := { log_dir := "${LOGS}", text_tokenizer_file := "${HOME}/tok",
                encodec_model_file := "${HOME}/enc", lm_model_file := "${HOME}/lm",
                encodec_num_codebooks := 8, use_cpu_for_encodec := true,
                rest := [("x", "y")] } }

/-- A parser that accepts any document as cSrcW. -/
def parseW : String → Except Err Config :=
  fun _ => .ok cSrcW

/-- cSrcW after substitution under envW: HOME resolved, the unset LOGS
replaced by the empty string, everything else untouched. -/
def cResW : Config :=
  { cert_dir := "/home/u/certs", static_dir := "/home/u/www", addr := "::1", port := 8998,
    stream := { log_dir := "", text_tokenizer_file := "/home/u/tok",
                encodec_model_file := "/home/u/enc", lm_model_file := "/home/u/lm",
                encodec_num_codebooks := 8, use_cpu_for_encodec := true,
                rest := [("x", "y")] } }

theorem findClose_length {l name r : List Char} (h : findClose l = some (name, r)) :
    r.length < l.length := by
  induction l generalizing name r with
  | nil => simp [findClose] at h
  | cons c rest ih =>
    simp only [findClose] at h
    by_cases hc : c = '}'
    · simp [hc] at h
      simp [← h.2, List.length_cons]
    · simp only [hc, if_false] at h
      cases hfc : findClose rest with
      | none => simp [hfc] at h
      | some p =>
        obtain ⟨n0, r0⟩ := p
        simp [hfc] at h
        have := ih hfc
        simp [← h.2, List.length_cons]
        omega

theorem findClose_append {n : List Char} (q : List Char)
    (hn : ∀ ch ∈ n, ch ≠ '}') :
    findClose (n ++ '}' :: q) = some (n, q) := by
  induction n with
  | nil => simp [findClose]
  | cons c n ih =>
    have hc : c ≠ '}' := hn c (List.mem_cons_self c n)
    have ih2 := ih fun ch h => hn ch (List.mem_cons_of_mem c h)
    simp [findClose, hc, ih2]

theorem substAux_fuel_congr_aux (env : String → Option String) :
    ∀ (N : Nat) (l : List Char) (f f' : Nat), l.length ≤ N →
      l.length ≤ f → l.length ≤ f' →
      substAux env f l = substAux env f' l := by
  intro N
  induction N using Nat.strong_induction_on with
  | _ N ih =>
    intro l f f' hN hf hf'
    cases l with
    | nil => cases f <;> cases f' <;> rfl
    | cons c rest =>
      simp only [List.length_cons] at hN hf hf'
      cases f with
      | zero => omega
      | succ f =>
        cases f' with
        | zero => omega
        | succ f' =>
          by_cases hc : c = '$'
          · subst hc
            cases rest with
            | nil => rfl
            | cons c2 rest2 =>
              simp only [List.length_cons] at hN hf hf'
              by_cases h2 : c2 = '{'
              · subst h2
                cases hfc : findClose rest2 with
                | some p =>
                  obtain ⟨name, r⟩ := p
                  have hr := findClose_length hfc
                  simp only [substAux, hfc, if_pos]
                  congr 1
                  exact ih r.length (by omega) r f f' le_rfl (by omega) (by omega)
                | none =>
                  simp only [substAux, hfc, if_pos]
                  congr 2
                  exact ih rest2.length (by omega) rest2 f f' le_rfl (by omega) (by omega)
              · simp only [substAux, h2, if_pos]
                congr 1
                exact ih (rest2.length + 1) (by omega) (c2 :: rest2) f f'
                  (by simp) (by simp; omega) (by simp; omega)
          · simp only [substAux, if_neg hc]
            congr 1
            exact ih rest.length (by omega) rest f f' le_rfl (by omega) (by omega)

theorem substAux_fuel_congr (env : String → Option String) (fuel : Nat)
    (l : List Char) (h : l.length ≤ fuel) :
    substAux env fuel l = substAux env l.length l :=
  substAux_fuel_congr_aux env l.length l fuel l.length le_rfl h le_rfl

theorem substAux_no_dollar (env : String → Option String) (p l : List Char)
    (hp : ∀ ch ∈ p, ch ≠ '$') :
    substAux env (p ++ l).length (p ++ l) = p ++ substAux env l.length l := by
  induction p with
  | nil => simp
  | cons c p ih =>
    have hc : c ≠ '$' := hp c (List.mem_cons_self c p)
    have ih2 := ih fun ch h => hp ch (List.mem_cons_of_mem c h)
    simp only [List.cons_append, List.length_cons, substAux, if_neg hc, List.append_eq]
    rw [ih2]

theorem substAux_token (env : String → Option String) (n q : List Char)
    (hn : ∀ ch ∈ n, ch ≠ '}') :
    substAux env ('$' :: '{' :: (n ++ '}' :: q)).length ('$' :: '{' :: (n ++ '}' :: q))
      = ((env (String.mk n)).getD "").toList ++ substAux env q.length q := by
  have hfc := findClose_append q hn
  simp only [List.length_cons, substAux, hfc, if_pos]
  congr 1
  have hq : q.length ≤ (n ++ '}' :: q).length + 1 := by simp; omega
  exact substAux_fuel_congr env ((n ++ '}' :: q).length + 1) q hq

/-- C5: for every configuration document that reads and parses
successfully, load substitutes environment variables into each of the six
path-like fields via replace_env_vars; and replace_env_vars replaces every
placeholder token by the value of the named environment variable, an unset
variable substituting the empty string without failing (the trailing
substAux accounts for the recursive substitution of the remainder, so the
statement covers every token of the field). -/
theorem load_substitutes_env_placeholders
    (readFile : Except Err String) (parse : String → Except Err Config)
    (env : String → Option String) (s : String) (c r : Config)
    (hread : readFile = .ok s) (hparse : parse s = .ok c)
    (hload : Config.load readFile parse env = .ok r) :
    (r.static_dir = replace_env_vars env c.static_dir
     ∧ r.cert_dir = replace_env_vars env c.cert_dir
     ∧ r.stream.log_dir = replace_env_vars env c.stream.log_dir
     ∧ r.stream.text_tokenizer_file = replace_env_vars env c.stream.text_tokenizer_file
     ∧ r.stream.encodec_model_file = replace_env_vars env c.stream.encodec_model_file
     ∧ r.stream.lm_model_file = replace_env_vars env c.stream.lm_model_file)
    ∧ (∀ p n q : List Char, (∀ ch ∈ p, ch ≠ '$') → (∀ ch ∈ n, ch ≠ '}') →
        replace_env_vars env (String.mk (p ++ '$' :: '{' :: (n ++ '}' :: q)))
          = String.mk (p ++ (((env (String.mk n)).getD "").toList
              ++ substAux env q.length q)))
    ∧ (∀ p n q : List Char, (∀ ch ∈ p, ch ≠ '$') → (∀ ch ∈ n, ch ≠ '}') →
        env (String.mk n) = none →
        replace_env_vars env (String.mk (p ++ '$' :: '{' :: (n ++ '}' :: q)))
          = String.mk (p ++ substAux env q.length q)) := by
  have hsub : ∀ p n q : List Char, (∀ ch ∈ p, ch ≠ '$') → (∀ ch ∈ n, ch ≠ '}') →
      replace_env_vars env (String.mk (p ++ '$' :: '{' :: (n ++ '}' :: q)))
        = String.mk (p ++ (((env (String.mk n)).getD "").toList
            ++ substAux env q.length q)) := by
    intro p n q hp hn
    show String.mk (substAux env (p ++ '$' :: '{' :: (n ++ '}' :: q)).length
        (p ++ '$' :: '{' :: (n ++ '}' :: q))) = _
    rw [substAux_no_dollar env p ('$' :: '{' :: (n ++ '}' :: q)) hp,
        substAux_token env n q hn]
  refine ⟨?_, hsub, ?_⟩
  · simp only [Config.load, hread, hparse] at hload
    cases hload
    simp
  · intro p n q hp hn hnone
    rw [hsub p n q hp hn, hnone]
    simp [Option.getD]

/-- Witness for C5: under an environment defining only HOME, loading a
parsed configuration whose fields carry placeholders resolves HOME in five
fields and replaces the unset LOGS by the empty string. -/
theorem load_substitutes_env_placeholders_witness :
    Config.load (Except.ok "raw") parseW envW = Except.ok cResW
    ∧ cResW.static_dir = replace_env_vars envW "${HOME}/www"
    ∧ replace_env_vars envW (String.mk (([] : List Char) ++ '$' :: '{'
        :: (['L', 'O', 'G', 'S'] ++ '}' :: ([] : List Char))))
      = String.mk (([] : List Char)
          ++ substAux envW (([] : List Char)).length ([] : List Char)) := by
  have h := load_substitutes_env_placeholders (Except.ok "raw") parseW envW
    "raw" cSrcW cResW rfl rfl (by decide)
  refine ⟨by decide, ?_, ?_⟩
  · exact h.1.1
  · exact h.2.2 [] ['L', 'O', 'G', 'S'] [] (by decide) (by decide) (by decide)

/-- C10: load leaves every deserialized field other than the six path-like
ones exactly as parsed: the bind address, the port, the codec codebook
count, the codec CPU flag and the remaining fields of the nested streaming
configuration are returned unchanged. -/
theorem load_preserves_non_path_fields
    (readFile : Except Err String) (parse : String → Except Err Config)
    (env : String → Option String) (s : String) (c r : Config)
    (hread : readFile = .ok s) (hparse : parse s = .ok c)
    (hload : Config.load readFile parse env = .ok r) :
    r.addr = c.addr ∧ r.port = c.port
    ∧ r.stream.encodec_num_codebooks = c.stream.encodec_num_codebooks
    ∧ r.stream.use_cpu_for_encodec = c.stream.use_cpu_for_encodec
    ∧ r.stream.rest = c.stream.rest := by
  simp only [Config.load, hread, hparse] at hload
  cases hload
  simp

/-- Witness for C10: on the concrete load, address, port, codebook count,
CPU flag and the opaque rest field come back exactly as parsed. -/
theorem load_preserves_non_path_fields_witness :
    Config.load (Except.ok "raw") parseW envW = Except.ok cResW
    ∧ cResW.addr = cSrcW.addr ∧ cResW.port = cSrcW.port
    ∧ cResW.stream.rest = cSrcW.stream.rest := by
  have h := load_preserves_non_path_fields (Except.ok "raw") parseW envW
    "raw" cSrcW cResW rfl rfl (by decide)
  exact ⟨by decide, h.1, h.2.1, h.2.2.2.2⟩

/-- C2: device selection returns exactly one outcome per input triple, in
strict first-match order: force_cpu gives CPU with full precision; else an
available CUDA runtime gives CUDA ordinal 0 with reduced precision; else an
available Metal runtime gives Metal ordinal 0 with full precision; else CPU
with full precision.  The two accelerator constructors are assumed to
succeed, matching the successful-construction outcomes the claim lists. -/
theorem device_selection_priority (E : DeviceEnv)
    (hc : E.newCudaErr 0 = none) (hm : E.newMetalErr 0 = none) :
    (device E true = .ok Device.Cpu ∧ dtypeFor Device.Cpu = DType.F32)
    ∧ (E.cuda_is_available = true →
        device E false = .ok (Device.Cuda 0) ∧ dtypeFor (Device.Cuda 0) = DType.BF16)
    ∧ (E.cuda_is_available = false → E.metal_is_available = true →
        device E false = .ok (Device.Metal 0) ∧ dtypeFor (Device.Metal 0) = DType.F32)
    ∧ (E.cuda_is_available = false → E.metal_is_available = false →
        device E false = .ok Device.Cpu ∧ dtypeFor Device.Cpu = DType.F32) := by
  refine ⟨⟨rfl, rfl⟩, ?_, ?_, ?_⟩ <;> intros <;>
    simp_all [device, dtypeFor, Device.is_cuda]

/-- Witness for C2: the four priority cases evaluated on concrete device
environments. -/
theorem device_selection_priority_witness :
    (device denvAll true = .ok Device.Cpu ∧ dtypeFor Device.Cpu = DType.F32)
    ∧ (device denvAll false = .ok (Device.Cuda 0) ∧ dtypeFor (Device.Cuda 0) = DType.BF16)
    ∧ (device denvMetal false = .ok (Device.Metal 0) ∧ dtypeFor (Device.Metal 0) = DType.F32)
    ∧ (device denvNone false = .ok Device.Cpu ∧ dtypeFor Device.Cpu = DType.F32) :=
  ⟨(device_selection_priority denvAll rfl rfl).1,
   (device_selection_priority denvAll rfl rfl).2.1 rfl,
   (device_selection_priority denvMetal rfl rfl).2.2.1 rfl rfl,
   (device_selection_priority denvNone rfl rfl).2.2.2 rfl rfl⟩

/-- C4 counterexample: with only the Metal runtime available, the selected
device is the Metal accelerator, yet the derived dtype is F32, not the
reduced precision the claim requires on every accelerator. -/
theorem accelerator_precision_counterexample :
    device denvMetal false = .ok (Device.Metal 0)
    ∧ (Device.Metal 0).isAccelerator = true
    ∧ (dtypeFor (Device.Metal 0)).isReduced = false := by
  refine ⟨rfl, rfl, rfl⟩

/-- C4 amended: the derived precision is reduced exactly when the selected
device is the CUDA accelerator; the Metal accelerator and the CPU both get
full precision. -/
theorem dtype_reduced_iff_cuda :
    ∀ d : Device, (dtypeFor d).isReduced = d.is_cuda
      ∧ (d.is_cuda = false → dtypeFor d = DType.F32) := by
  intro d
  cases d <;> refine ⟨rfl, ?_⟩ <;> intro h <;> first | rfl | cases h

/-- Witness for C4 amended: evaluated on the Metal device, the derived
precision is not reduced and equals F32. -/
theorem dtype_reduced_iff_cuda_witness :
    (dtypeFor (Device.Metal 0)).isReduced = (Device.Metal 0).is_cuda
    ∧ dtypeFor (Device.Metal 0) = DType.F32 :=
  ⟨(dtype_reduced_iff_cuda (Device.Metal 0)).1,
   (dtype_reduced_iff_cuda (Device.Metal 0)).2 rfl⟩

/-- C6: cert_file joins the resolved certificate directory with the name;
it returns the joined path when that path is a regular file and fails with
the missing-file error naming that path when it is not. -/
theorem cert_file_spec (fs : String → Bool) (c : Config) (name : String) :
    (fs (pathJoin c.cert_dir name) = true →
      Config.cert_file fs c name = .ok (pathJoin c.cert_dir name))
    ∧ (fs (pathJoin c.cert_dir name) = false →
      Config.cert_file fs c name = .error (Err.missingFile (pathJoin c.cert_dir name))) := by
  constructor <;> intro h <;> simp [Config.cert_file, h]

/-- Witness for C6: on a filesystem holding only cert.pem under /certs,
cert.pem resolves to the joined path and key.pem fails with the
missing-file error. -/
theorem cert_file_spec_witness :
    Config.cert_file fsCertOnly configW "cert.pem" = .ok "/certs/cert.pem"
    ∧ Config.cert_file fsCertOnly configW "key.pem"
        = .error (Err.missingFile "/certs/key.pem") :=
  ⟨(cert_file_spec fsCertOnly configW "cert.pem").1 (by decide),
   (cert_file_spec fsCertOnly configW "key.pem").2 (by decide)⟩

/-- C3: in the warm-up, once the encode step has succeeded on the synthetic
buffer, a decode step that produces no output makes AppStateInner::new fail
with the empty-output error rather than succeed silently; a decode step
that does produce output passes the check, and with synchronization
succeeding new returns the constructed state. -/
theorem warmup_empty_output_check
    (W : World Lm Codec Tok V Ys Sample Codes Val Lp)
    (args : StandaloneArgs) (config : StreamConfig)
    (dev : Device) (lm lm2 lm3 : Lm) (codec codec2 codec3 : Codec) (tok : Tok)
    (v : V) (ys : Ys) (lp2 : Lp) (s : Sample) (codes : Codes) (out : StreamTensor Val)
    (hdev : Standalone.device W.denv args.cpu = .ok dev)
    (hlm : W.load_streaming config.lm_model_file (dtypeFor dev) dev = .ok lm)
    (henc : W.encodec_load config.encodec_model_file (some config.encodec_num_codebooks)
        (encodecDevice config dev) = .ok codec)
    (htok : W.tokenizer_open config.text_tokenizer_file = .ok tok)
    (hfwd : W.forward lm none (List.replicate config.encodec_num_codebooks none)
        = .ok (lm2, v, ys))
    (hsamp : W.depformer_sample lm2 0 ys none (W.logits_processor_new 123 none none)
        = .ok (lm3, lp2, s))
    (hzeros : W.zerosErr [1, 1, frameLength (W.encodec_config codec)] DType.F32
        (encodecDevice config dev) = none)
    (hencst : W.encode_step codec
        (Tensor.zeros [1, 1, frameLength (W.encodec_config codec)] DType.F32)
        = .ok (codec2, codes))
    (hdec : W.decode_step codec2 codes = .ok (codec3, out)) :
    (out.as_option = none →
       AppStateInner.new W args config = .error Err.emptyOutput)
    ∧ (∀ v0 : Val, out.as_option = some v0 → W.synchronize dev = none →
       AppStateInner.new W args config
         = .ok { lm_model := lm, encodec_model := codec, device := dev,
                 config := config, text_tokenizer := tok }) := by
  constructor
  · intro hnone
    simp [AppStateInner.new, hdev, hlm, henc, htok, hfwd, hsamp, hzeros, hencst, hdec, hnone]
  · intro v0 hsome hsync
    simp [AppStateInner.new, hdev, hlm, henc, htok, hfwd, hsamp, hzeros, hencst, hdec,
      hsome, hsync]

/-- Witness for C3: on the concrete world whose decode step returns no
output the construction fails with the empty-output error, and on the one
whose decode step returns output it succeeds. -/
theorem warmup_empty_output_check_witness :
    AppStateInner.new (cWorld none false) { cpu := true } streamConfigW
      = .error Err.emptyOutput
    ∧ AppStateInner.new (cWorld (some 4) false) { cpu := true } streamConfigW
      = .ok { lm_model := 1, encodec_model := 2, device := Device.Cpu,
              config := streamConfigW, text_tokenizer := 3 } :=
  ⟨(warmup_empty_output_check (cWorld none false) { cpu := true } streamConfigW
      Device.Cpu 1 11 111 2 9 18 3 () () () () 5 { as_option := none }
      rfl rfl rfl rfl rfl rfl rfl rfl rfl).1 rfl,
   (warmup_empty_output_check (cWorld (some 4) false) { cpu := true } streamConfigW
      Device.Cpu 1 11 111 2 9 18 3 () () () () 5 { as_option := some 4 }
      rfl rfl rfl rfl rfl rfl rfl rfl rfl).2 4 rfl rfl⟩

/-- C9: the warm-up operates only on copies of the freshly loaded models,
so whenever AppStateInner::new succeeds, the state it returns holds exactly
the language model and codec as loaded, together with the selected device,
the given configuration and the loaded tokenizer, for every possible
behaviour of the warm-up steps. -/
theorem warmup_preserves_loaded_models
    (W : World Lm Codec Tok V Ys Sample Codes Val Lp)
    (args : StandaloneArgs) (config : StreamConfig)
    (dev : Device) (lm : Lm) (codec : Codec) (tok : Tok)
    (hdev : Standalone.device W.denv args.cpu = .ok dev)
    (hlm : W.load_streaming config.lm_model_file (dtypeFor dev) dev = .ok lm)
    (henc : W.encodec_load config.encodec_model_file (some config.encodec_num_codebooks)
        (encodecDevice config dev) = .ok codec)
    (htok : W.tokenizer_open config.text_tokenizer_file = .ok tok)
    (st : AppStateInner Lm Codec Tok)
    (hok : AppStateInner.new W args config = .ok st) :
    st.lm_model = lm ∧ st.encodec_model = codec ∧ st.device = dev
    ∧ st.config = config ∧ st.text_tokenizer = tok := by
  simp only [AppStateInner.new, hdev, hlm, henc, htok] at hok
  repeat' split at hok
  all_goals simp_all
  all_goals simp [← hok]

/-- Witness for C9: on the concrete world, whose warm-up steps visibly
mutate their copies of the two models, the returned state still holds the
originally loaded values 1 and 2. -/
theorem warmup_preserves_loaded_models_witness :
    (AppStateInner.new (cWorld (some 4) false) { cpu := true } streamConfigW
      = .ok { lm_model := 1, encodec_model := 2, device := Device.Cpu,
              config := streamConfigW, text_tokenizer := 3 })
    ∧ ({ lm_model := 1, encodec_model := 2, device := Device.Cpu,
         config := streamConfigW, text_tokenizer := 3 } :
           AppStateInner Nat Nat Nat).lm_model = 1 :=
  ⟨rfl,
   (warmup_preserves_loaded_models (cWorld (some 4) false) { cpu := true } streamConfigW
      Device.Cpu 1 2 3 rfl rfl rfl rfl _ rfl).1⟩

/-- C7: the warm-up synthetic buffer is all zeros with shape one batch, one
channel and ceiling of sample_rate over frame_rate samples, the rates taken
from the codec reported configuration; for 24000 and 75 this is exactly 320
samples, and new hands exactly that tensor to the encode step (witnessed
here by the encode failure propagating). -/
theorem warmup_one_frame_zero_buffer
    (W : World Lm Codec Tok V Ys Sample Codes Val Lp)
    (args : StandaloneArgs) (config : StreamConfig)
    (dev : Device) (lm lm2 lm3 : Lm) (codec : Codec) (tok : Tok)
    (v : V) (ys : Ys) (lp2 : Lp) (s : Sample) (e : Err)
    (hdev : Standalone.device W.denv args.cpu = .ok dev)
    (hlm : W.load_streaming config.lm_model_file (dtypeFor dev) dev = .ok lm)
    (henc : W.encodec_load config.encodec_model_file (some config.encodec_num_codebooks)
        (encodecDevice config dev) = .ok codec)
    (htok : W.tokenizer_open config.text_tokenizer_file = .ok tok)
    (hfwd : W.forward lm none (List.replicate config.encodec_num_codebooks none)
        = .ok (lm2, v, ys))
    (hsamp : W.depformer_sample lm2 0 ys none (W.logits_processor_new 123 none none)
        = .ok (lm3, lp2, s))
    (hconf : W.encodec_config codec = { sample_rate := 24000, frame_rate := 75 })
    (hzeros : W.zerosErr [1, 1, 320] DType.F32 (encodecDevice config dev) = none)
    (hencst : W.encode_step codec (Tensor.zeros [1, 1, 320] DType.F32) = .error e) :
    frameLength { sample_rate := 24000, frame_rate := 75 } = 320
    ∧ (∀ c : EncodecConfig,
        (Tensor.zeros [1, 1, frameLength c] DType.F32).shape = [1, 1, frameLength c])
    ∧ (Tensor.zeros [1, 1, 320] DType.F32).elems = List.replicate 320 0
    ∧ AppStateInner.new W args config = .error e := by
  have h320 : frameLength { sample_rate := 24000, frame_rate := 75 } = 320 := by
    norm_num [frameLength]
    rfl
  refine ⟨h320, fun c => rfl, rfl, ?_⟩
  simp [AppStateInner.new, hdev, hlm, henc, htok, hfwd, hsamp, hconf, h320, hzeros, hencst]

/-- Witness for C7: the concrete world with a failing encode step makes new
fail with exactly that encode error; the codec there reports 24000 and 75. -/
theorem warmup_one_frame_zero_buffer_witness :
    frameLength { sample_rate := 24000, frame_rate := 75 } = 320
    ∧ (Tensor.zeros [1, 1, 320] DType.F32).elems = List.replicate 320 0
    ∧ AppStateInner.new (cWorld (some 4) true) { cpu := true } streamConfigW
        = .error Err.encodeFailed := by
  have h := warmup_one_frame_zero_buffer (cWorld (some 4) true) { cpu := true } streamConfigW
    Device.Cpu 1 11 111 2 3 () () () () Err.encodeFailed
    rfl rfl rfl rfl rfl rfl rfl rfl rfl
  exact ⟨h.1, h.2.2.1, h.2.2.2⟩

/-- C1: run admits no connection before warm-up has succeeded.  A failure
of certificate resolution, TLS-context construction or application-state
construction makes run return that error with an empty event trace, so in
particular without the bind event; and a bind event in the trace implies
the application state was successfully constructed. -/
theorem run_binds_only_after_warmup
    (W : World Lm Codec Tok V Ys Sample Codes Val Lp)
    (RW : RunWorld Lm Codec Tok Tls) (args : StandaloneArgs) (config : Config) :
    (∀ e, Config.cert_file RW.is_file config "cert.pem" = .error e →
        run W RW args config = ([], .error e))
    ∧ (∀ cp e, Config.cert_file RW.is_file config "cert.pem" = .ok cp →
        Config.cert_file RW.is_file config "key.pem" = .error e →
        run W RW args config = ([], .error e))
    ∧ (∀ cp kp e, Config.cert_file RW.is_file config "cert.pem" = .ok cp →
        Config.cert_file RW.is_file config "key.pem" = .ok kp →
        RW.from_pem_file cp kp = .error e →
        run W RW args config = ([], .error e))
    ∧ (∀ e, AppStateInner.new W args config.stream = .error e →
        (run W RW args config).1 = [])
    ∧ (∀ cp kp tls e, Config.cert_file RW.is_file config "cert.pem" = .ok cp →
        Config.cert_file RW.is_file config "key.pem" = .ok kp →
        RW.from_pem_file cp kp = .ok tls →
        AppStateInner.new W args config.stream = .error e →
        run W RW args config = ([], .error e))
    ∧ (∀ a, RunEvent.bound a ∈ (run W RW args config).1 →
        ∃ st, AppStateInner.new W args config.stream = .ok st) := by
  refine ⟨?_, ?_, ?_, ?_, ?_, ?_⟩
  · intro e h
    simp [run, h]
  · intro cp e h1 h2
    simp [run, h1, h2]
  · intro cp kp e h1 h2 h3
    simp [run, h1, h2, h3]
  · intro e h
    cases h1 : Config.cert_file RW.is_file config "cert.pem" with
    | error e1 => simp [run, h1]
    | ok cp =>
      cases h2 : Config.cert_file RW.is_file config "key.pem" with
      | error e2 => simp [run, h1, h2]
      | ok kp =>
        cases h3 : RW.from_pem_file cp kp with
        | error e3 => simp [run, h1, h2, h3]
        | ok tls => simp [run, h1, h2, h3, h]
  · intro cp kp tls e h1 h2 h3 h4
    simp [run, h1, h2, h3, h4]
  · intro a ha
    cases h1 : Config.cert_file RW.is_file config "cert.pem" with
    | error e1 => simp [run, h1] at ha
    | ok cp =>
      cases h2 : Config.cert_file RW.is_file config "key.pem" with
      | error e2 => simp [run, h1, h2] at ha
      | ok kp =>
        cases h3 : RW.from_pem_file cp kp with
        | error e3 => simp [run, h1, h2, h3] at ha
        | ok tls =>
          cases h4 : AppStateInner.new W args config.stream with
          | error e4 => simp [run, h1, h2, h3, h4] at ha
          | ok st => exact ⟨st, rfl⟩

/-- Witness for C1: with a warm-up whose decode step yields no output, run
on the concrete worlds returns the empty-output error having emitted no
event, in particular no bind. -/
theorem run_binds_only_after_warmup_witness :
    run (cWorld none false) (cRunWorld none) { cpu := true } configW
      = ([], .error Err.emptyOutput) :=
  (run_binds_only_after_warmup (cWorld none false) (cRunWorld none)
      { cpu := true } configW).2.2.2.2.1
    "/certs/cert.pem" "/certs/key.pem" () Err.emptyOutput
    (by decide) (by decide) rfl rfl

/-- C8 counterexample: the configured address of configW does not parse in
the run world cRunWorld none, run falls back to the loopback address, yet
its whole observable trace, log events included, is identical to the trace
of the same run in which the address parsed successfully to the loopback:
no emitted event records that a fallback happened, so the fallback is not
logged, it is silently applied. -/
theorem addr_fallback_not_logged :
    (cRunWorld none).ip_from_str configW.addr = none
    ∧ (cRunWorld (some ipv6Localhost)).ip_from_str configW.addr = some ipv6Localhost
    ∧ run (cWorld (some 4) false) (cRunWorld none) { cpu := true } configW
        = run (cWorld (some 4) false) (cRunWorld (some ipv6Localhost)) { cpu := true } configW
    ∧ (run (cWorld (some 4) false) (cRunWorld none) { cpu := true } configW).1
        = [RunEvent.logListening (ipv6Localhost, 8998), RunEvent.bound (ipv6Localhost, 8998)] :=
  ⟨rfl, rfl, rfl, rfl⟩

/-- C8 amended: when the configured bind address does not parse, run uses
the IPv6 loopback address with the configured port, both in the listening
log line and in the bind; the fallback itself produces no dedicated log
message.  When the address parses, the parsed address is used with the
configured port. -/
theorem run_addr_fallback
    (W : World Lm Codec Tok V Ys Sample Codes Val Lp)
    (RW : RunWorld Lm Codec Tok Tls) (args : StandaloneArgs) (config : Config)
    (cp kp : String) (tls : Tls) (st : AppStateInner Lm Codec Tok)
    (h1 : Config.cert_file RW.is_file config "cert.pem" = .ok cp)
    (h2 : Config.cert_file RW.is_file config "key.pem" = .ok kp)
    (h3 : RW.from_pem_file cp kp = .ok tls)
    (h4 : AppStateInner.new W args config.stream = .ok st) :
    (RW.ip_from_str config.addr = none →
      (run W RW args config).1
        = [RunEvent.logListening (ipv6Localhost, config.port),
           RunEvent.bound (ipv6Localhost, config.port)])
    ∧ (∀ ip, RW.ip_from_str config.addr = some ip →
      (run W RW args config).1
        = [RunEvent.logListening (ip, config.port),
           RunEvent.bound (ip, config.port)]) := by
  constructor
  · intro hip
    simp [run, h1, h2, h3, h4, hip]
  · intro ip hip
    simp [run, h1, h2, h3, h4, hip]

/-- Witness for C8 amended: both branches evaluated on the concrete worlds,
one with an unparseable address falling back to loopback, one with the
address parsing to a distinct concrete address. -/
theorem run_addr_fallback_witness :
    (run (cWorld (some 4) false) (cRunWorld none) { cpu := true } configW).1
      = [RunEvent.logListening (ipv6Localhost, 8998), RunEvent.bound (ipv6Localhost, 8998)]
    ∧ (run (cWorld (some 4) false) (cRunWorld (some (IpAddr.v4 127 0 0 1)))
        { cpu := true } configW).1
      = [RunEvent.logListening (IpAddr.v4 127 0 0 1, 8998),
         RunEvent.bound (IpAddr.v4 127 0 0 1, 8998)] :=
  ⟨(run_addr_fallback (cWorld (some 4) false) (cRunWorld none) { cpu := true } configW
      "/certs/cert.pem" "/certs/key.pem" ()
      { lm_model := 1, encodec_model := 2, device := Device.Cpu,
        config := streamConfigW, text_tokenizer := 3 }
      (by decide) (by decide) rfl rfl).1 rfl,
   (run_addr_fallback (cWorld (some 4) false) (cRunWorld (some (IpAddr.v4 127 0 0 1)))
      { cpu := true } configW
      "/certs/cert.pem" "/certs/key.pem" ()
      { lm_model := 1, encodec_model := 2, device := Device.Cpu,
        config := streamConfigW, text_tokenizer := 3 }
      (by decide) (by decide) rfl rfl).2 (IpAddr.v4 127 0 0 1) rfl⟩
